import Mathlib

/-!
Shallow embedding of `src/components/BuyerGuideForm.tsx` from the
oliza-intake-form repository: the webhook URL selection, the budget step
table and its formatter, the zod validation schema, the draft persistence
overlay (localStorage rehydration), the property-type toggle, and the
submission handler.  Numeric JavaScript arithmetic is rendered with exact
natural-number arithmetic; the one double-sensitive spot, the `toFixed(1)`
display rounding inside `formatBudget`, is modelled exactly by constructing
the IEEE-754 double nearest to `value / 1000000` as a dyadic rational and
rounding that double to tenths with ties away from zero, as the ECMAScript
`toFixed` specification does.
-/

set_option autoImplicit false

namespace BuyerGuide

/-- Production webhook endpoint (BuyerGuideForm.tsx line 15). -/
def prodWebhookUrl : String :=
  "https://sparkevolution.app.n8n.cloud/webhook/buyer-guide-intake-prod"

/-- Development webhook endpoint (BuyerGuideForm.tsx line 18). -/
def devWebhookUrl : String :=
  "https://sparkevolution.app.n8n.cloud/webhook/buyer-guide-intake-dev"

/-- `getWebhookUrl` (BuyerGuideForm.tsx lines 12-19), with the ambient
`window.location.hostname` made an explicit argument. -/
def getWebhookUrl (hostname : String) : String :=
  if hostname = "app.oliza.ai" then prodWebhookUrl
  else devWebhookUrl

/-- The budget step table `budgetSteps` (BuyerGuideForm.tsx lines 58-73):
$25K steps from $250K to $1M, $50K steps to $2M, $100K steps to $5M,
$250K steps to $10M. -/
def budgetSteps : List Nat :=
  [250000, 275000, 300000, 325000, 350000, 375000, 400000, 425000, 450000, 475000,
   500000, 525000, 550000, 575000, 600000, 625000, 650000, 675000, 700000, 725000,
   750000, 775000, 800000, 825000, 850000, 875000, 900000, 925000, 950000, 975000, 1000000,
   1050000, 1100000, 1150000, 1200000, 1250000, 1300000, 1350000, 1400000, 1450000, 1500000,
   1550000, 1600000, 1650000, 1700000, 1750000, 1800000, 1850000, 1900000, 1950000, 2000000,
   2100000, 2200000, 2300000, 2400000, 2500000, 2600000, 2700000, 2800000, 2900000, 3000000,
   3100000, 3200000, 3300000, 3400000, 3500000, 3600000, 3700000, 3800000, 3900000, 4000000,
   4100000, 4200000, 4300000, 4400000, 4500000, 4600000, 4700000, 4800000, 4900000, 5000000,
   5250000, 5500000, 5750000, 6000000, 6250000, 6500000, 6750000, 7000000, 7250000, 7500000,
   7750000, 8000000, 8250000, 8500000, 8750000, 9000000, 9250000, 9500000, 9750000, 10000000]

/-- Decimal digits of `r / 1000` for `0 < r < 1000`, without trailing zeros:
how JavaScript prints the fractional part of `value / 1000`. -/
def fracPart (r : Nat) : String :=
  let d1 := r / 100
  let d2 := r / 10 % 10
  let d3 := r % 10
  if d3 ≠ 0 then toString d1 ++ toString d2 ++ toString d3
  else if d2 ≠ 0 then toString d1 ++ toString d2
  else toString d1

/-- Floor of the base-2 logarithm, by structural recursion on a fuel
argument; `fuel = n` always suffices since the binary length of `n` is at
most `n`. -/
def floorLog2Aux : Nat → Nat → Nat
  | 0, _ => 0
  | fuel + 1, n => if 2 ≤ n then floorLog2Aux fuel (n / 2) + 1 else 0

/-- Floor of the base-2 logarithm of a positive natural number. -/
def floorLog2 (n : Nat) : Nat := floorLog2Aux n n

/-- The tenths integer displayed by `(value / 1000000).toFixed(1)` for
`1000000 ≤ value`, computed exactly.  Step 1 builds the IEEE-754 double
nearest to the rational `value / 10^6`: with `k = floor (log2 (value/10^6))`
the representable doubles around it are the multiples of `2^(k-52)`, so the
double is `m / 2^t` where `t = 52 - k` and `m` is `value * 2^t / 10^6`
rounded to the nearest integer, ties to even (the 53-bit significand
rounding of binary64).  Step 2 is `toFixed(1)`: round that double to
tenths, picking the larger candidate at a tie (ECMAScript `toFixed`), which
for a positive dyadic `m / 2^t` is `floor ((10 * m + 2^t / 2) / 2^t)`,
written below as `(20 * m + 2^t) / 2^(t+1)`.  The `52 < k` branch (ulp
above 1, value at least `2^53 * 10^6`) rounds to an even integer of
tenths; such magnitudes cannot arise from the budget table, whose maximum
entry is `10^7`, and the model ignores `toFixed`'s switch to exponential
notation beyond `10^21` for the same reason. -/
def toFixedTenths (value : Nat) : Nat :=
  let k := floorLog2 (value / 1000000)
  if k ≤ 52 then
    let t := 52 - k
    let num := value * 2 ^ t
    let q := num / 1000000
    let r := num % 1000000
    let m := q + (if 1000000 < 2 * r then 1 else if 2 * r < 1000000 then 0 else q % 2)
    (20 * m + 2 ^ t) / 2 ^ (t + 1)
  else
    let s := k - 52
    let den := 1000000 * 2 ^ s
    let q := value / den
    let r := value % den
    let m := q + (if den < 2 * r then 1 else if 2 * r < den then 0 else q % 2)
    m * 2 ^ s * 10

/-- `formatBudget` (BuyerGuideForm.tsx lines 49-55).  For values at or above
one million: plain integer millions when the value is a whole number of
millions, otherwise `toFixed(1)` — one digit after the decimal point, its
value given by the exact double-based rounding `toFixedTenths` (so for
example 1150000 renders as `$1.1M`, the double `1.15` lying below the
decimal tie, while 1250000 renders as `$1.3M`, the double `1.25` being an
exact tie resolved upward).  Below one million: `value / 1000` printed as
JavaScript prints the number. -/
def formatBudget (value : Nat) : String :=
  if 1000000 ≤ value then
    if value % 1000000 = 0 then
      "$" ++ toString (value / 1000000) ++ "M"
    else
      let n := toFixedTenths value
      "$" ++ toString (n / 10) ++ "." ++ toString (n % 10) ++ "M"
  else
    if value % 1000 = 0 then
      "$" ++ toString (value / 1000) ++ "K"
    else
      "$" ++ toString (value / 1000) ++ "." ++ fracPart (value % 1000) ++ "K"

/-- Recognises strings of the shape claimed for sub-million budgets:
a dollar sign, then the decimal digits of an integer, then `K`. -/
def isIntThousandsK (s : String) : Bool :=
  match s.toList with
  | '$' :: rest =>
      (rest.getLast? == some 'K') &&
      (let mid := rest.dropLast
       1 ≤ mid.length && mid.all Char.isDigit)
  | _ => false

/-- The form draft record, `FormData = z.infer<typeof formSchema>`
(BuyerGuideForm.tsx lines 24-44).  The three `.optional()` text fields are
rendered as plain strings because the form always holds a string for them
(their defaults are `""` and their inputs are registered text fields). -/
structure FormData where
  agentEmail : String
  buyerName : String
  buyerSituation : String
  currentHome : String
  targetAreaPrimary : String
  targetAreaSpecific : String
  commuteDestination : String
  budgetRange : List Nat
  timeline : String
  bedrooms : String
  bathrooms : String
  propertyTypes : List String
  topPriority : String
  workSituation : String
  hasChildren : Bool
  lifestyleFocus : String
  agentInsights : String
  deriving DecidableEq, Repr

/-- `defaultValues` (BuyerGuideForm.tsx lines 147-165). -/
def defaultValues : FormData where
  agentEmail := ""
  buyerName := ""
  buyerSituation := "first-time"
  currentHome := ""
  targetAreaPrimary := "New Hampshire Seacoast"
  targetAreaSpecific := ""
  commuteDestination := ""
  budgetRange := [10, 38]
  timeline := "3-6"
  bedrooms := "3"
  bathrooms := "2"
  propertyTypes := ["single-family"]
  topPriority := ""
  workSituation := "hybrid"
  hasChildren := false
  lifestyleFocus := "suburban"
  agentInsights := ""

/-- Split a character list at every occurrence of `sep`, structurally. -/
def splitOnChar (sep : Char) : List Char → List (List Char)
  | [] => [[]]
  | c :: rest =>
    let r := splitOnChar sep rest
    if c = sep then [] :: r
    else
      match r with
      | [] => [[c]]
      | g :: gs => (c :: g) :: gs

/-- Does the character list contain two consecutive dots? -/
def hasDoubleDot : List Char → Bool
  | '.' :: '.' :: _ => true
  | _ :: rest => hasDoubleDot rest
  | [] => false

/-- Characters zod's email regex allows in the local part. -/
def isLocalChar (c : Char) : Bool :=
  c.isAlphanum || c = Char.ofNat 95 || c = Char.ofNat 39 || c = '+' || c = '-' || c = '.'

/-- Characters zod's email regex allows as the final local-part character
(everything above except the dot). -/
def isLocalEndChar (c : Char) : Bool :=
  c.isAlphanum || c = Char.ofNat 95 || c = '+' || c = '-'

/-- One non-final domain label: `[A-Z0-9][A-Z0-9-]*`, case-insensitive. -/
def domainLabelValid (l : List Char) : Bool :=
  match l with
  | [] => false
  | c :: rest => c.isAlphanum && rest.all (fun d => d.isAlphanum || d = '-')

/-- The final domain label: `[A-Z]{2,}`, case-insensitive. -/
def tldValid (l : List Char) : Bool :=
  2 ≤ l.length && l.all Char.isAlpha

/-- Domain of an address: `([A-Z0-9][A-Z0-9-]*\.)+[A-Z]{2,}`. -/
def domainValid (d : List Char) : Bool :=
  let parts := splitOnChar '.' d
  2 ≤ parts.length &&
    parts.dropLast.all domainLabelValid &&
    (match parts.getLast? with
     | some t => tldValid t
     | none => false)

/-- Models zod's `z.string().email()` check used on `agentEmail`
(BuyerGuideForm.tsx line 25): a local part of permitted characters that does
not start with a dot, contains no doubled dot and does not end with a dot,
one `@`, and a well-formed domain. -/
def emailValid (s : String) : Bool :=
  match splitOnChar '@' s.toList with
  | [localPart, domain] =>
      1 ≤ localPart.length &&
      localPart.all isLocalChar &&
      localPart.head? ≠ some '.' &&
      !hasDoubleDot localPart &&
      (match localPart.getLast? with
       | some c => isLocalEndChar c
       | none => false) &&
      domainValid domain
  | _ => false

/-- The `agentInsights` rule of `formSchema` (BuyerGuideForm.tsx line 41):
`z.string().min(200).max(1200)`. -/
def agentInsightsCheck (s : String) : Prop :=
  200 ≤ s.length ∧ s.length ≤ 1200

instance (s : String) : Decidable (agentInsightsCheck s) := by
  unfold agentInsightsCheck
  infer_instance

/-- The `propertyTypes` rule of `formSchema` (BuyerGuideForm.tsx line 36):
`z.array(z.string()).min(1)`. -/
def propertyTypesCheck (l : List String) : Prop :=
  1 ≤ l.length

instance (l : List String) : Decidable (propertyTypesCheck l) := by
  unfold propertyTypesCheck
  infer_instance

/-- The whole `formSchema` (BuyerGuideForm.tsx lines 24-42), one conjunct per
field rule.  `hasChildren` is `z.boolean()`, satisfied by every `Bool`. -/
def validateForm (d : FormData) : Prop :=
  emailValid d.agentEmail = true ∧
  1 ≤ d.buyerName.length ∧
  1 ≤ d.buyerSituation.length ∧
  d.currentHome.length ≤ 300 ∧
  1 ≤ d.targetAreaPrimary.length ∧
  d.targetAreaSpecific.length ≤ 100 ∧
  d.commuteDestination.length ≤ 100 ∧
  d.budgetRange.length = 2 ∧
  1 ≤ d.timeline.length ∧
  1 ≤ d.bedrooms.length ∧
  1 ≤ d.bathrooms.length ∧
  propertyTypesCheck d.propertyTypes ∧
  1 ≤ d.topPriority.length ∧
  1 ≤ d.workSituation.length ∧
  1 ≤ d.lifestyleFocus.length ∧
  agentInsightsCheck d.agentInsights

instance (d : FormData) : Decidable (validateForm d) := by
  unfold validateForm
  infer_instance

/-- JSON values as far as the persisted draft needs them. -/
inductive JsonVal where
  | jstr (s : String)
  | jnum (n : Nat)
  | jbool (b : Bool)
  | jarr (xs : List JsonVal)

/-- A parsed JSON object: keys in insertion order. -/
abbrev JsonObj := List (String × JsonVal)

/-- `react-hook-form`'s `setValue(key, v)` on the draft viewed as a key-value
object: replace the value at `key` if present, append otherwise. -/
def setKey (obj : JsonObj) (k : String) (v : JsonVal) : JsonObj :=
  if obj.any (fun p => p.1 == k) then
    obj.map (fun p => if p.1 == k then (k, v) else p)
  else obj ++ [(k, v)]

/-- Value stored at a key, if any. -/
def getVal (obj : JsonObj) (k : String) : Option JsonVal :=
  (obj.find? (fun p => p.1 == k)).map (fun p => p.2)

/-- Does a JSON value deserialize to a two-element array?  This is the
`Array.isArray(value) && value.length === 2` condition of the loader. -/
def isTwoElemArray : JsonVal → Bool
  | JsonVal.jarr xs => xs.length == 2
  | _ => false

/-- One step of the rehydration loop (BuyerGuideForm.tsx lines 188-199):
`budgetRange` is applied only when it is a two-element array, the legacy key
`targetArea` is skipped, every other key is applied as-is via `setValue`. -/
def overlayField (acc : JsonObj) (kv : String × JsonVal) : JsonObj :=
  if kv.1 == "budgetRange" then
    match kv.2 with
    | JsonVal.jarr xs => if xs.length == 2 then setKey acc kv.1 kv.2 else acc
    | _ => acc
  else if kv.1 == "targetArea" then acc
  else setKey acc kv.1 kv.2

/-- The whole rehydration pass over a successfully parsed stored draft
(BuyerGuideForm.tsx lines 183-205): overlay each stored key onto the
defaults. -/
def applyStored (defaults : JsonObj) (parsed : JsonObj) : JsonObj :=
  parsed.foldl overlayField defaults

/-- `JSON.stringify(watchedValues)` (BuyerGuideForm.tsx line 210) at the
JSON level: the draft as a key-value object, keys in declaration order. -/
def FormData.toJson (d : FormData) : JsonObj :=
  [("agentEmail", JsonVal.jstr d.agentEmail),
   ("buyerName", JsonVal.jstr d.buyerName),
   ("buyerSituation", JsonVal.jstr d.buyerSituation),
   ("currentHome", JsonVal.jstr d.currentHome),
   ("targetAreaPrimary", JsonVal.jstr d.targetAreaPrimary),
   ("targetAreaSpecific", JsonVal.jstr d.targetAreaSpecific),
   ("commuteDestination", JsonVal.jstr d.commuteDestination),
   ("budgetRange", JsonVal.jarr (d.budgetRange.map JsonVal.jnum)),
   ("timeline", JsonVal.jstr d.timeline),
   ("bedrooms", JsonVal.jstr d.bedrooms),
   ("bathrooms", JsonVal.jstr d.bathrooms),
   ("propertyTypes", JsonVal.jarr (d.propertyTypes.map JsonVal.jstr)),
   ("topPriority", JsonVal.jstr d.topPriority),
   ("workSituation", JsonVal.jstr d.workSituation),
   ("hasChildren", JsonVal.jbool d.hasChildren),
   ("lifestyleFocus", JsonVal.jstr d.lifestyleFocus),
   ("agentInsights", JsonVal.jstr d.agentInsights)]

/-- The budget resolution of `onSubmit` (BuyerGuideForm.tsx lines 221-223):
`budgetSteps[data.budgetRange[0]]` and `budgetSteps[data.budgetRange[1]]`,
with JavaScript's out-of-bounds `undefined` rendered as `none`. -/
def resolveBudget (range : List Nat) : Option Nat × Option Nat :=
  ((range[0]?).bind (fun i => budgetSteps[i]?),
   (range[1]?).bind (fun i => budgetSteps[i]?))

/-- The webhook payload (BuyerGuideForm.tsx lines 225-246). -/
structure Payload where
  brokerage_slug : String
  intake_pin : String
  agent_email : String
  buyer_name : String
  buyer_situation : String
  current_home : String
  primary_search_area : String
  specific_location_notes : String
  commute_destination : String
  budget_min : Option Nat
  budget_max : Option Nat
  timeline : String
  bedrooms : String
  bathrooms : String
  property_types : List String
  top_priority : String
  work_situation : String
  has_children : Bool
  lifestyle_focus : String
  agent_insights : String
  deriving DecidableEq, Repr

/-- Payload construction from a draft (BuyerGuideForm.tsx lines 225-246).
The `|| ""` guards on the optional text fields are the identity here because
the draft always holds a string for them. -/
def mkPayload (data : FormData) : Payload where
  brokerage_slug := "duston-leddy"
  intake_pin := "847293"
  agent_email := data.agentEmail
  buyer_name := data.buyerName
  buyer_situation := data.buyerSituation
  current_home := data.currentHome
  primary_search_area := data.targetAreaPrimary
  specific_location_notes := data.targetAreaSpecific
  commute_destination := data.commuteDestination
  budget_min := (resolveBudget data.budgetRange).1
  budget_max := (resolveBudget data.budgetRange).2
  timeline := data.timeline
  bedrooms := data.bedrooms
  bathrooms := data.bathrooms
  property_types := data.propertyTypes
  top_priority := data.topPriority
  work_situation := data.workSituation
  has_children := data.hasChildren
  lifestyle_focus := data.lifestyleFocus
  agent_insights := data.agentInsights

/-- Terminal outcome of a submission: the success transition versus the
destructive failure toast. -/
inductive SubmitOutcome where
  | success
  | error
  deriving DecidableEq, Repr

/-- Component state relevant to the claims: the three `useState` hooks, the
in-memory draft held by `react-hook-form`, and the localStorage entry under
`buyer-guide-form-draft` (at the parsed-JSON level; `none` means absent). -/
structure ComponentState where
  isSubmitting : Bool
  isSuccess : Bool
  submittedEmail : String
  draft : FormData
  storage : Option JsonObj

/-- `response.ok` over the fetch result: `none` is a network failure,
`some status` a received response, `ok` exactly for 2xx. -/
def isOk : Option Nat → Bool
  | none => false
  | some status => 200 ≤ status && status < 300

/-- Net effect of `onSubmit` (BuyerGuideForm.tsx lines 217-279) once the
single fetch has completed with the given result: the list of outbound
requests, the terminal outcome, and the state after the handler returns.
`setIsSubmitting(true)` at entry is undone by the `finally` block; the
transient submitting state is not observable after completion.  On success
the handler removes the stored draft, resets the form to `defaultValues` and
sets `isSuccess`; on failure (network error or non-2xx, both reaching the
`catch` via the thrown `Webhook failed` error) it only shows the error
toast, leaving draft and storage untouched. -/
def onSubmit (st : ComponentState) (data : FormData) (response : Option Nat) :
    List Payload × SubmitOutcome × ComponentState :=
  let payload := mkPayload data
  if isOk response then
    ([payload], SubmitOutcome.success,
      { isSubmitting := false
        isSuccess := true
        submittedEmail := data.agentEmail
        draft := defaultValues
        storage := none })
  else
    ([payload], SubmitOutcome.error,
      { isSubmitting := false
        isSuccess := st.isSuccess
        submittedEmail := data.agentEmail
        draft := st.draft
        storage := st.storage })

/-- The property-type card click handler (BuyerGuideForm.tsx lines 665-670):
deselect if selected, append if not, and fall back to `[option]` when the
result would be empty. -/
def togglePropertyType (current : List String) (opt : String) : List String :=
  let newValue :=
    if current.contains opt then current.filter (fun v => v != opt)
    else current ++ [opt]
  if newValue.length != 0 then newValue else [opt]

/-- A concrete draft passing every `formSchema` rule, used to instantiate
the submission theorems. -/
def sampleDraft : FormData :=
  { defaultValues with
      agentEmail := "agent@dustonleddy.com"
      buyerName := "Sarah Johnson"
      topPriority := "waterfront"
      agentInsights := String.mk (List.replicate 200 'a') }

/-- Claim C1: the budget step table is strictly monotonically increasing, so
resolving any index pair (lo, hi) with lo ≤ hi inside the table bounds (the
bounds are witnessed by both lookups succeeding) yields currency values with
table[lo] ≤ table[hi]. -/
theorem budgetSteps_strictMono_resolve :
    List.Pairwise (fun a b => a < b) budgetSteps ∧
    ∀ lo hi a b : Nat, lo ≤ hi →
      (resolveBudget [lo, hi]).1 = some a →
      (resolveBudget [lo, hi]).2 = some b → a ≤ b := by
  have hp : List.Pairwise (fun a b => a < b) budgetSteps := by decide
  refine ⟨hp, fun lo hi a b hle ha hb => ?_⟩
  simp only [resolveBudget, List.getElem?_cons_zero, List.getElem?_cons_succ,
    Option.some_bind] at ha hb
  rw [List.getElem?_eq_some] at ha hb
  obtain ⟨hlo, ha⟩ := ha
  obtain ⟨hhi, hb⟩ := hb
  subst ha
  subst hb
  rcases Nat.eq_or_lt_of_le hle with heq | hlt
  · subst heq
    exact le_of_eq rfl
  · have hrel := List.pairwise_iff_get.mp hp ⟨lo, hlo⟩ ⟨hi, hhi⟩ hlt
    simpa [List.get_eq_getElem] using hrel.le

/-- Concrete instantiation of the monotonicity claim at the extreme index
pair (0, 100). -/
theorem budgetSteps_strictMono_resolve_witness :
    (resolveBudget [0, 100]).1 = some 250000 ∧
    (resolveBudget [0, 100]).2 = some 10000000 ∧
    (250000 : Nat) ≤ 10000000 :=
  ⟨by decide, by decide,
   budgetSteps_strictMono_resolve.2 0 100 250000 10000000
     (by decide) (by decide) (by decide)⟩

/-- Claim C8: budget lookup yields no currency value exactly when the index
is outside the table bounds [0, table.length - 1]; in-bounds indices always
yield a value. -/
theorem resolveBudget_out_of_bounds (lo hi : Nat) :
    (budgetSteps.length ≤ lo → (resolveBudget [lo, hi]).1 = none) ∧
    (budgetSteps.length ≤ hi → (resolveBudget [lo, hi]).2 = none) ∧
    (lo < budgetSteps.length → ∃ v, (resolveBudget [lo, hi]).1 = some v) ∧
    (hi < budgetSteps.length → ∃ v, (resolveBudget [lo, hi]).2 = some v) := by
  refine ⟨fun h => ?_, fun h => ?_, fun h => ?_, fun h => ?_⟩ <;>
    simp only [resolveBudget, List.getElem?_cons_zero, List.getElem?_cons_succ,
      Option.some_bind]
  · exact List.getElem?_eq_none h
  · exact List.getElem?_eq_none h
  · exact ⟨budgetSteps[lo], List.getElem?_eq_getElem h⟩
  · exact ⟨budgetSteps[hi], List.getElem?_eq_getElem h⟩

/-- Concrete instantiation of the out-of-bounds claim at index 101 (one past
the last valid index 100). -/
theorem resolveBudget_out_of_bounds_witness :
    (resolveBudget [101, 100]).1 = none ∧
    ∃ v, (resolveBudget [101, 100]).2 = some v :=
  ⟨(resolveBudget_out_of_bounds 101 100).1 (by decide),
   (resolveBudget_out_of_bounds 101 100).2.2.2 (by decide)⟩

/-- Claim C10: getWebhookUrl returns the production endpoint URL if and only
if the hostname equals app.oliza.ai, and the development endpoint URL for
every other hostname. -/
theorem getWebhookUrl_spec (h : String) :
    (getWebhookUrl h = prodWebhookUrl ↔ h = "app.oliza.ai") ∧
    (h ≠ "app.oliza.ai" → getWebhookUrl h = devWebhookUrl) := by
  have hne : devWebhookUrl ≠ prodWebhookUrl := by decide
  by_cases hc : h = "app.oliza.ai"
  · subst hc
    simp [getWebhookUrl]
  · simp [getWebhookUrl, hc, hne]

/-- Concrete instantiation of the webhook-selection claim at the two
hostnames named by the claim. -/
theorem getWebhookUrl_spec_witness :
    getWebhookUrl "localhost" = devWebhookUrl ∧
    getWebhookUrl "dev.oliza.ai" = devWebhookUrl :=
  ⟨(getWebhookUrl_spec "localhost").2 (by decide),
   (getWebhookUrl_spec "dev.oliza.ai").2 (by decide)⟩

/-- Claim C4: the agentInsights rule rejects a string of length 199, accepts
lengths 200 and 1200, and rejects length 1201. -/
theorem agentInsights_length_validation (s : String) :
    (s.length = 199 → ¬ agentInsightsCheck s) ∧
    (s.length = 200 → agentInsightsCheck s) ∧
    (s.length = 1200 → agentInsightsCheck s) ∧
    (s.length = 1201 → ¬ agentInsightsCheck s) := by
  unfold agentInsightsCheck
  refine ⟨fun h => ?_, fun h => ?_, fun h => ?_, fun h => ?_⟩ <;> rw [h] <;> omega

set_option maxRecDepth 10000 in
/-- Concrete instantiation of the insights-length claim at strings of the
four boundary lengths. -/
theorem agentInsights_length_validation_witness :
    ¬ agentInsightsCheck (String.mk (List.replicate 199 'a')) ∧
    agentInsightsCheck (String.mk (List.replicate 200 'a')) ∧
    agentInsightsCheck (String.mk (List.replicate 1200 'a')) ∧
    ¬ agentInsightsCheck (String.mk (List.replicate 1201 'a')) :=
  ⟨(agentInsights_length_validation _).1 (by decide),
   (agentInsights_length_validation _).2.1 (by decide),
   (agentInsights_length_validation _).2.2.1 (by decide),
   (agentInsights_length_validation _).2.2.2 (by decide)⟩

/-- Claim C9: validation rejects an empty propertyTypes selection and
accepts a single-element one; the toggle operation maps every non-empty
list to a non-empty list, and deselecting the last remaining selected type
keeps that type selected. -/
theorem propertyTypes_never_empty :
    (¬ propertyTypesCheck []) ∧
    propertyTypesCheck ["single-family"] ∧
    (∀ (l : List String) (o : String), l ≠ [] → togglePropertyType l o ≠ []) ∧
    (∀ t : String, togglePropertyType [t] t = [t]) := by
  refine ⟨by decide, by decide, fun l o _ => ?_, fun t => ?_⟩
  · unfold togglePropertyType
    generalize (if l.contains o then l.filter (fun v => v != o) else l ++ [o]) = nv
    cases nv <;> simp
  · simp [togglePropertyType]

/-- Concrete instantiation of the toggle claim on a singleton selection. -/
theorem propertyTypes_never_empty_witness :
    togglePropertyType ["condo"] "townhouse" ≠ [] :=
  propertyTypes_never_empty.2.2.1 ["condo"] "townhouse" (by decide)

/-- Claim C2: on a successful submission of a valid draft whose budget index
pair is (lo, hi), exactly one outbound request fires, its budget_min and
budget_max fields equal table[lo] and table[hi], the persisted draft is
deleted from storage, the in-memory draft resets to the hard-coded defaults,
and the state becomes success holding the submitted agent email address. -/
theorem onSubmit_success_spec (st : ComponentState) (data : FormData)
    (response : Option Nat) (lo hi : Nat)
    (_hvalid : validateForm data)
    (hrange : data.budgetRange = [lo, hi])
    (hlo : lo < budgetSteps.length) (hhi : hi < budgetSteps.length)
    (hok : isOk response = true) :
    onSubmit st data response =
      ([mkPayload data], SubmitOutcome.success,
        { isSubmitting := false
          isSuccess := true
          submittedEmail := data.agentEmail
          draft := defaultValues
          storage := none }) ∧
    (mkPayload data).budget_min = some (budgetSteps.getD lo 0) ∧
    (mkPayload data).budget_max = some (budgetSteps.getD hi 0) := by
  refine ⟨by simp [onSubmit, hok], ?_, ?_⟩
  · simp only [mkPayload, resolveBudget, hrange, List.getElem?_cons_zero,
      Option.some_bind]
    rw [List.getElem?_eq_getElem hlo, List.getD_eq_getElem budgetSteps 0 hlo]
  · simp only [mkPayload, resolveBudget, hrange, List.getElem?_cons_zero,
      List.getElem?_cons_succ, Option.some_bind]
    rw [List.getElem?_eq_getElem hhi, List.getD_eq_getElem budgetSteps 0 hhi]

set_option maxRecDepth 10000 in
/-- Concrete instantiation of the successful-submission claim: a fully valid
draft, a stored copy of it, and a simulated 200 response. -/
theorem onSubmit_success_spec_witness :
    onSubmit
      { isSubmitting := false
        isSuccess := false
        submittedEmail := ""
        draft := sampleDraft
        storage := some (FormData.toJson sampleDraft) }
      sampleDraft (some 200) =
      ([mkPayload sampleDraft], SubmitOutcome.success,
        { isSubmitting := false
          isSuccess := true
          submittedEmail := sampleDraft.agentEmail
          draft := defaultValues
          storage := none }) ∧
    (mkPayload sampleDraft).budget_min = some (budgetSteps.getD 10 0) ∧
    (mkPayload sampleDraft).budget_max = some (budgetSteps.getD 38 0) :=
  onSubmit_success_spec _ sampleDraft (some 200) 10 38
    (by decide) (by decide) (by decide) (by decide) (by decide)

/-- Claim C3: on a failed submission (network failure or any non-2xx
response) the handler reports the error outcome and leaves both the
in-memory draft field values and the persisted draft in local storage
unchanged, so the user can resubmit without re-entering data. -/
theorem onSubmit_failure_spec (st : ComponentState) (data : FormData)
    (response : Option Nat) (hfail : isOk response = false) :
    onSubmit st data response =
      ([mkPayload data], SubmitOutcome.error,
        { isSubmitting := false
          isSuccess := st.isSuccess
          submittedEmail := data.agentEmail
          draft := st.draft
          storage := st.storage }) ∧
    (onSubmit st data response).2.2.draft = st.draft ∧
    (onSubmit st data response).2.2.storage = st.storage := by
  refine ⟨?_, ?_, ?_⟩ <;> simp [onSubmit, hfail]

set_option maxRecDepth 10000 in
/-- Concrete instantiation of the failed-submission claim: the sample draft
with a stored copy and a simulated 500 response. -/
theorem onSubmit_failure_spec_witness :
    onSubmit
      { isSubmitting := false
        isSuccess := false
        submittedEmail := ""
        draft := sampleDraft
        storage := some (FormData.toJson sampleDraft) }
      sampleDraft (some 500) =
      ([mkPayload sampleDraft], SubmitOutcome.error,
        { isSubmitting := false
          isSuccess := false
          submittedEmail := sampleDraft.agentEmail
          draft := sampleDraft
          storage := some (FormData.toJson sampleDraft) }) ∧
    (onSubmit
      { isSubmitting := false
        isSuccess := false
        submittedEmail := ""
        draft := sampleDraft
        storage := some (FormData.toJson sampleDraft) }
      sampleDraft (some 500)).2.2.draft = sampleDraft ∧
    (onSubmit
      { isSubmitting := false
        isSuccess := false
        submittedEmail := ""
        draft := sampleDraft
        storage := some (FormData.toJson sampleDraft) }
      sampleDraft (some 500)).2.2.storage = some (FormData.toJson sampleDraft) :=
  onSubmit_failure_spec _ sampleDraft (some 500) (by decide)

/-- Claim C6 counterexample: 1500 is below one million, yet formatBudget
renders it as a decimal fraction of thousands, not an integer number of
thousands. -/
theorem formatBudget_fractional_thousands :
    1500 < 1000000 ∧
    formatBudget 1500 = "$1.5K" ∧
    isIntThousandsK (formatBudget 1500) = false :=
  ⟨by decide, by decide, by decide⟩

/-- Claim C6 (amended): values at or above one million render as a dollar
amount in millions, with no decimal point when the millions are whole and
exactly one decimal digit otherwise (the digit being the one `toFixed(1)`
produces from the double `value / 1000000`); values below one million that
are whole multiples of one thousand — which includes every budget table
entry below one million — render as the integer number of thousands
followed by K. -/
theorem formatBudget_spec (v : Nat) :
    (1000000 ≤ v → v % 1000000 = 0 →
      formatBudget v = "$" ++ toString (v / 1000000) ++ "M") ∧
    (1000000 ≤ v → v % 1000000 ≠ 0 →
      ∃ q d : Nat, d < 10 ∧
        formatBudget v = "$" ++ toString q ++ "." ++ toString d ++ "M") ∧
    (v < 1000000 → v % 1000 = 0 →
      formatBudget v = "$" ++ toString (v / 1000) ++ "K") := by
  refine ⟨fun h1 h2 => ?_, fun h1 h2 => ?_, fun h1 h2 => ?_⟩
  · simp [formatBudget, h1, h2]
  · refine ⟨toFixedTenths v / 10, toFixedTenths v % 10,
      Nat.mod_lt _ (by omega), ?_⟩
    simp [formatBudget, h1, h2]
  · have h3 : ¬ 1000000 ≤ v := by omega
    simp [formatBudget, h3, h2]

/-- Concrete instantiation of the amended formatting claim: a whole number
of millions, a fractional number of millions, and a table value below one
million. -/
theorem formatBudget_spec_witness :
    formatBudget 3000000 = "$" ++ toString (3000000 / 1000000) ++ "M" ∧
    (∃ q d : Nat, d < 10 ∧
      formatBudget 2500000 = "$" ++ toString q ++ "." ++ toString d ++ "M") ∧
    formatBudget 250000 = "$" ++ toString (250000 / 1000) ++ "K" :=
  ⟨(formatBudget_spec 3000000).1 (by decide) (by decide),
   (formatBudget_spec 2500000).2.1 (by decide) (by decide),
   (formatBudget_spec 250000).2.2 (by decide) (by decide)⟩

/-- Claim C5: persisting a draft and rehydrating from it yields the same
draft on every field (a serialized draft never carries the legacy targetArea
key, which is the one deliberately-ignored exception), and a malformed
single-element budgetRange rehydrates to the default budget range rather
than crashing. -/
theorem draft_roundtrip (d : FormData) (h2 : d.budgetRange.length = 2) :
    applyStored (FormData.toJson defaultValues) (FormData.toJson d)
      = FormData.toJson d ∧
    getVal (applyStored (FormData.toJson defaultValues)
        [("budgetRange", JsonVal.jarr [JsonVal.jnum 5])]) "budgetRange"
      = some (JsonVal.jarr [JsonVal.jnum 10, JsonVal.jnum 38]) := by
  obtain ⟨a, b, hab⟩ := List.length_eq_two.mp h2
  refine ⟨?_, rfl⟩
  cases d
  simp only at hab
  subst hab
  simp only [FormData.toJson, applyStored, List.foldl_cons, List.foldl_nil]
  simp [overlayField, setKey]

/-- Concrete instantiation of the round-trip claim at the default draft. -/
theorem draft_roundtrip_witness :
    applyStored (FormData.toJson defaultValues) (FormData.toJson defaultValues)
      = FormData.toJson defaultValues ∧
    getVal (applyStored (FormData.toJson defaultValues)
        [("budgetRange", JsonVal.jarr [JsonVal.jnum 5])]) "budgetRange"
      = some (JsonVal.jarr [JsonVal.jnum 10, JsonVal.jnum 38]) :=
  draft_roundtrip defaultValues rfl

/-- A value under the budgetRange key that is not a two-element array is
skipped by the rehydration step. -/
theorem overlayField_skips_bad_budgetRange (acc : JsonObj) (bad : JsonVal)
    (hbad : isTwoElemArray bad = false) :
    overlayField acc ("budgetRange", bad) = acc := by
  cases bad <;> simp_all [overlayField, isTwoElemArray]

/-- Claim C7 counterexample: a corrupted buyerName value (a number where a
string belongs) is overlaid raw by rehydration instead of leaving that field
at its default. -/
theorem rehydrate_corrupt_field_not_defaulted :
    getVal (applyStored (FormData.toJson defaultValues)
        [("buyerName", JsonVal.jnum 42)]) "buyerName" = some (JsonVal.jnum 42) ∧
    getVal (FormData.toJson defaultValues) "buyerName" = some (JsonVal.jstr "") ∧
    JsonVal.jnum 42 ≠ JsonVal.jstr "" :=
  ⟨rfl, rfl, fun h => JsonVal.noConfusion h⟩

/-- Claim C7 (amended): rehydration tolerates malformed persisted data
field-by-field without aborting — a malformed budget-range entry is skipped,
leaving that field exactly as it would be had the corrupted entry been
absent, while every other stored entry is still overlaid; corrupted values
under other keys are overlaid as-is rather than reset to defaults. -/
theorem rehydrate_skips_malformed_budgetRange (defaults pre post : JsonObj)
    (bad : JsonVal) (hbad : isTwoElemArray bad = false) :
    applyStored defaults (pre ++ ("budgetRange", bad) :: post)
      = applyStored defaults (pre ++ post) := by
  unfold applyStored
  rw [List.foldl_append, List.foldl_append, List.foldl_cons,
    overlayField_skips_bad_budgetRange _ bad hbad]

/-- Concrete instantiation of the amended rehydration claim: a stored draft
whose budgetRange is a single-element array, between two healthy fields. -/
theorem rehydrate_skips_malformed_budgetRange_witness :
    applyStored (FormData.toJson defaultValues)
        ([("buyerName", JsonVal.jstr "X")] ++
          ("budgetRange", JsonVal.jarr [JsonVal.jnum 5]) ::
            [("timeline", JsonVal.jstr "asap")])
      = applyStored (FormData.toJson defaultValues)
          ([("buyerName", JsonVal.jstr "X")] ++ [("timeline", JsonVal.jstr "asap")]) :=
  rehydrate_skips_malformed_budgetRange _ _ _ _ rfl

end BuyerGuide
